import Mathlib

/-!
Verification of the scope-sdk Python client library (`scope_client`).

This file gives a shallow embedding of the library's core components —
the TTL cache (`cache.py`), the retry/backoff connection layer
(`connection.py`), the token manager (`token_manager.py`), the template
renderer (`renderer.py`), telemetry header redaction (`_telemetry.py`)
and the client façade (`client.py`) — and proves or refutes the
specification's claims about them.

Modelling conventions:
* Python floats (timestamps, delays) are modelled as exact rationals `ℚ`;
  Python `None` inside cached values is modelled as `Option.none`.
* Stateful methods become explicit state-passing functions, threaded with
  the current wall-clock time `now : ℚ` where the code calls `time.time()`.
* `random.random()` is modelled as an explicit parameter `r` with the
  hypothesis `0 ≤ r < 1`.
* String-scanning code is modelled over `List Char`; the `\w` character
  class of Python's `re` is modelled on its ASCII fragment
  (letters, digits, underscore), which is what the spec describes.
-/

set_option maxHeartbeats 1000000

namespace ScopeSdk

/-! ## TTL cache — `scope_client/cache.py`

`CacheEntry` is the dataclass `{value, expires_at}`.  The Python cache
stores arbitrary values including `None`; a stored value is therefore an
`Option α` whose `Option.none` models the Python value `None`.  The store
is a Python dict: an association list with at most one entry per key,
insertion-ordered (overwriting keeps the position, like `dict.__setitem__`). -/

structure CacheEntry (α : Type) where
  value : Option α
  expiresAt : ℚ
deriving DecidableEq, Repr

/-- `CacheEntry.is_expired`: `time.time() >= self.expires_at`. -/
def CacheEntry.isExpired (e : CacheEntry α) (now : ℚ) : Bool :=
  decide (now ≥ e.expiresAt)

structure Cache (α : Type) where
  ttl : ℚ
  store : List (String × CacheEntry α)
deriving DecidableEq, Repr

/-- `self._store.get(key)` on the dict model. -/
def storeGet (s : List (String × CacheEntry α)) (k : String) : Option (CacheEntry α) :=
  match s with
  | [] => Option.none
  | (k₁, e) :: rest => if k₁ = k then some e else storeGet rest k

/-- `self._store[key] = entry`: overwrite in place, else append. -/
def storeSet (s : List (String × CacheEntry α)) (k : String) (e : CacheEntry α) :
    List (String × CacheEntry α) :=
  match s with
  | [] => [(k, e)]
  | (k₁, e₁) :: rest => if k₁ = k then (k, e) :: rest else (k₁, e₁) :: storeSet rest k e

/-- `del self._store[key]`. -/
def storeErase (s : List (String × CacheEntry α)) (k : String) :
    List (String × CacheEntry α) :=
  match s with
  | [] => []
  | (k₁, e₁) :: rest => if k₁ = k then rest else (k₁, e₁) :: storeErase rest k

/-- `Cache.get`: returns the Python return value (`None` for absent,
expired, or a stored `None`) together with the post-state (expired
entries are deleted on observation). -/
def Cache.get (c : Cache α) (now : ℚ) (k : String) : Option α × Cache α :=
  match storeGet c.store k with
  | Option.none => (Option.none, c)
  | some e =>
    if e.isExpired now then (Option.none, { c with store := storeErase c.store k })
    else (e.value, c)

/-- `Cache.set`: `expires_at = time.time() + (ttl if ttl is not None else self._ttl)`. -/
def Cache.set (c : Cache α) (now : ℚ) (k : String) (v : Option α) (ttlOverride : Option ℚ) :
    Cache α :=
  { c with store := storeSet c.store k ⟨v, now + ttlOverride.getD c.ttl⟩ }

/-- `Cache.fetch`: `get` first; if the observed value `is not None`
return it, otherwise invoke the loader, `set` the result and return it.
The pure model takes the loader's would-be return value as
`loaderValue`; the `Bool` in the result records whether the loader was
invoked. -/
def Cache.fetch (c : Cache α) (now : ℚ) (k : String) (loaderValue : Option α)
    (ttlOverride : Option ℚ) : Option α × Cache α × Bool :=
  match Cache.get c now k with
  | (some v, c₁) => (some v, c₁, false)
  | (Option.none, c₁) => (loaderValue, Cache.set c₁ now k loaderValue ttlOverride, true)

/-- `Cache.has`: `self.get(key) is not None` (with `get`'s side effect). -/
def Cache.has (c : Cache α) (now : ℚ) (k : String) : Bool × Cache α :=
  let p := Cache.get c now k
  (p.1.isSome, p.2)

/-- `Cache.delete`. -/
def Cache.delete (c : Cache α) (k : String) : Bool × Cache α :=
  match storeGet c.store k with
  | some _ => (true, { c with store := storeErase c.store k })
  | Option.none => (false, c)

/-! ## Exponential backoff — `Connection._calculate_backoff`

`delay = base_delay * 2 ** (attempt - 1)`;
`jitter = delay * 0.25 * (2 * random.random() - 1)`;
`return min(delay + jitter, max_delay)`. -/

def calculateBackoff (baseDelay maxDelay : ℚ) (attempt : ℕ) (r : ℚ) : ℚ :=
  let delay := baseDelay * 2 ^ (attempt - 1)
  let jitter := delay * (1 / 4) * (2 * r - 1)
  min (delay + jitter) maxDelay

/-! ## Error taxonomy — `scope_client/errors.py`

One inductive with a case per distinguishable error kind, carrying the
payload fields the claims talk about. -/

inductive ScopeErr where
  | authentication (msg : Option String)
  | authorization (msg : Option String)
  | notFound (msg : Option String)
  | conflict (msg : Option String)
  | rateLimit (msg : Option String) (retryAfter : Option ℤ)
  | server (status : ℕ) (msg : Option String)
  | apiError (status : ℕ) (msg : Option String)
  | connectionError (msg : String)
  | timeoutError (msg : String)
  | validation (msg : String)
  | missingVariable (missingVariables : List String) (template : String)
  | noProductionVersion (promptId : String)
deriving DecidableEq, Repr

instance {ε α : Type} [DecidableEq ε] [DecidableEq α] : DecidableEq (Except ε α) := fun a b =>
  match a, b with
  | .ok x, .ok y =>
    if h : x = y then .isTrue (congrArg Except.ok h)
    else .isFalse (fun hc => h (Except.ok.inj hc))
  | .error x, .error y =>
    if h : x = y then .isTrue (congrArg Except.error h)
    else .isFalse (fun hc => h (Except.error.inj hc))
  | .ok _, .error _ => .isFalse (fun hc => Except.noConfusion hc)
  | .error _, .ok _ => .isFalse (fun hc => Except.noConfusion hc)

/-! ## Renderer — `scope_client/renderer.py`

String scanning is modelled over `List Char`.  The recursions are
structural on a fuel argument initialised to the input length; every
iteration of the corresponding Python loop consumes at least one
character, so that fuel is exact (the `fuel = 0` fallback is
unreachable from the wrappers below). -/

/-- ASCII fragment of the `\w` class of `re`: letters, digits, underscore. -/
def isWordChar (c : Char) : Bool :=
  c.isAlphanum || c = '_'

/-- Does the first list start with the second? -/
def startsWithL : List Char → List Char → Bool
  | _, [] => true
  | [], _ :: _ => false
  | c :: cs, p :: ps => c = p && startsWithL cs ps

/-- `str.replace`: left-to-right non-overlapping replacement of every
occurrence of `pat` by `rep` (callers below always pass a non-empty
`pat`, namely a brace-delimited placeholder). -/
def replaceAux (pat rep : List Char) : ℕ → List Char → List Char
  | _, [] => []
  | 0, l => l
  | fuel + 1, c :: cs =>
    if pat ≠ [] && startsWithL (c :: cs) pat then
      rep ++ replaceAux pat rep fuel (List.drop pat.length (c :: cs))
    else
      c :: replaceAux pat rep fuel cs

def replaceList (l pat rep : List Char) : List Char :=
  replaceAux pat rep l.length l

def pyReplace (s pat rep : String) : String :=
  String.mk (replaceList s.data pat.data rep.data)

/-- The substitution loop of `Renderer.render`: for each provided
`(key, value)` in iteration order, `result = result.replace("{{" + key + "}}", value)`. -/
def substitute (content : String) (values : List (String × String)) : String :=
  values.foldl (fun acc kv => pyReplace acc ("\x7b\x7b" ++ kv.1 ++ "\x7d\x7d") kv.2) content

/-- `re.findall` of the pattern `\{\{(\w+)\}\}`: scan left to right; at
`{{` try a non-empty greedy word-character run followed by `}}`
(no backtracking can succeed because `}` is not a word character);
on failure advance one character; matches are non-overlapping. -/
def findVarsAux : ℕ → List Char → List String
  | _, [] => []
  | 0, _ => []
  | fuel + 1, '{' :: '{' :: rest =>
    let w := rest.takeWhile isWordChar
    if decide (w ≠ []) && startsWithL (rest.drop w.length) ['}', '}'] then
      String.mk w :: findVarsAux fuel (rest.drop (w.length + 2))
    else
      findVarsAux fuel ('{' :: rest)
  | fuel + 1, _ :: cs => findVarsAux fuel cs

def findVars (s : String) : List String :=
  findVarsAux s.data.length s.data

/-- `list(set(l))` — CPython's set order is unspecified; the model fixes
first-occurrence order.  The claims proved below depend only on the
underlying set of names. -/
def dedupAux (seen : List String) : List String → List String
  | [] => []
  | x :: xs => if x ∈ seen then dedupAux seen xs else x :: dedupAux (x :: seen) xs

def dedupFirst (l : List String) : List String :=
  dedupAux [] l

/-- Python string `<`: lexicographic by code point. -/
def charListLt : List Char → List Char → Bool
  | [], [] => false
  | [], _ :: _ => true
  | _ :: _, [] => false
  | a :: as, b :: bs => a < b || (a = b && charListLt as bs)

def strLtB (a b : String) : Bool :=
  charListLt a.data b.data

def insertSorted (x : String) : List String → List String
  | [] => [x]
  | y :: ys => if strLtB y x then y :: insertSorted x ys else x :: y :: ys

/-- Python `sorted` on strings (insertion sort; the inputs it is applied
to are duplicate-free sets, for which the sorted list is unique). -/
def insertionSort : List String → List String
  | [] => []
  | x :: xs => insertSorted x (insertionSort xs)

/-- `', '.join(l)`. -/
def joinComma : List String → String
  | [] => ""
  | [x] => x
  | x :: y :: xs => x ++ ", " ++ joinComma (y :: xs)

/-- `unknown_keys = set(values.keys()) - self._declared_variables`
(listed in first-occurrence order; keyword-argument keys are distinct
in Python, the model tolerates duplicates by deduplicating). -/
def unknownKeys (values : List (String × String)) (declared : List String) : List String :=
  dedupFirst ((values.map Prod.fst).filter (fun k => decide (k ∉ declared)))

/-- `Renderer._validate_variables`. -/
def validateVariables (declared : Option (List String))
    (values : List (String × String)) : Option ScopeErr :=
  match declared with
  | Option.none => Option.none
  | some d =>
    let unknown := unknownKeys values d
    if unknown ≠ [] then
      some (.validation ("Unknown variables: " ++ joinComma (insertionSort unknown) ++
        ". Declared variables are: " ++ joinComma (insertionSort (dedupFirst d))))
    else Option.none

/-- `Renderer._check_unrendered_variables` (the error carries
`list(set(unrendered))` and the original template). -/
def checkUnrendered (original result : String) : Option ScopeErr :=
  let unrendered := findVars result
  if unrendered ≠ [] then some (.missingVariable (dedupFirst unrendered) original)
  else Option.none

/-- `Renderer.render`: validate, then substitute sequentially, then
check for unrendered placeholders. -/
def render (content : String) (declared : Option (List String))
    (values : List (String × String)) : Except ScopeErr String :=
  match validateVariables declared values with
  | some e => .error e
  | Option.none =>
    let result := substitute content values
    match checkUnrendered content result with
    | some e => .error e
    | Option.none => .ok result

/-- Association lookup on the supplied values. -/
def lookupVal : List (String × String) → String → Option String
  | [], _ => Option.none
  | (k, v) :: rest, key => if k = key then some v else lookupVal rest key

/-- Modelled from the spec: the *single substitution pass* the spec
describes for `Renderer.render` — one scan over the original content in
which each `{{name}}` placeholder with a supplied value is replaced by
that value verbatim (inserted text is never re-scanned), used as the
reference point for claim C3. -/
def substOnePassAux (values : List (String × String)) : ℕ → List Char → List Char
  | _, [] => []
  | 0, l => l
  | fuel + 1, '{' :: '{' :: rest =>
    let w := rest.takeWhile isWordChar
    if decide (w ≠ []) && startsWithL (rest.drop w.length) ['}', '}'] then
      match lookupVal values (String.mk w) with
      | some v => v.data ++ substOnePassAux values fuel (rest.drop (w.length + 2))
      | Option.none =>
        '{' :: '{' :: (w ++ '}' :: '}' :: substOnePassAux values fuel (rest.drop (w.length + 2)))
    else '{' :: substOnePassAux values fuel ('{' :: rest)
  | fuel + 1, c :: cs => c :: substOnePassAux values fuel cs

/-- Modelled from the spec: `render` as the spec's words describe it —
validation, then a single simultaneous substitution pass, then the
missing-variable check. -/
def renderSinglePassSpec (content : String) (declared : Option (List String))
    (values : List (String × String)) : Except ScopeErr String :=
  match validateVariables declared values with
  | some e => .error e
  | Option.none =>
    let result := String.mk (substOnePassAux values content.data.length content.data)
    match checkUnrendered content result with
    | some e => .error e
    | Option.none => .ok result

/-! ## Token manager — `scope_client/token_manager.py`

`TokenManager._handle_token_response` classified by status.  The JSON
body of the auth response is modelled by `AuthJson` (fields the code
reads); `Option.none` for the whole body models a `response.json()`
that raises. -/

structure TokenInfo where
  accessToken : String
  expiresAt : ℚ
deriving DecidableEq, Repr

structure AuthJson where
  accessToken : Option String
  expiresIn : Option ℚ
  message : Option String
  errorField : Option String
deriving DecidableEq, Repr

inductive TokenOutcome where
  | ok (info : TokenInfo)
  | invalidCredentials (msg : String)
  | tokenRefresh (msg : String)
  | jsonDecodeError
  | keyError
deriving DecidableEq, Repr

/-- Python truthiness of an optional string (`None` and `""` are falsy). -/
def truthy (o : Option String) : Bool :=
  match o with
  | some s => decide (s ≠ "")
  | Option.none => false

/-- Python `a or b` on optional strings. -/
def pyOrStr (a b : Option String) : Option String :=
  if truthy a then a else b

/-- `TokenManager._handle_token_response`:
200 → parse `access_token` (a `KeyError` escapes if absent) and
`expires_in` (default `300`), store `TokenInfo` with
`expires_at = time.time() + expires_in`; 401/403 → `InvalidCredentialsError`;
else → `TokenRefreshError` with `data.get("message") or data.get("error")`
(any parse failure swallowed), falling back to
`f"Token refresh failed (HTTP {status})"` when that is falsy. -/
def handleTokenResponse (status : ℕ) (body : Option AuthJson) (now : ℚ) : TokenOutcome :=
  if status = 200 then
    match body with
    | Option.none => .jsonDecodeError
    | some data =>
      match data.accessToken with
      | Option.none => .keyError
      | some tok => .ok ⟨tok, now + data.expiresIn.getD 300⟩
  else if status = 401 then .invalidCredentials "Invalid SDK credentials"
  else if status = 403 then .invalidCredentials "SDK credentials are not authorized"
  else
    let message :=
      match body with
      | Option.none => Option.none
      | some data => pyOrStr data.message data.errorField
    if truthy message then .tokenRefresh (message.getD "")
    else .tokenRefresh ("Token refresh failed (HTTP " ++ toString status ++ ")")

/-- `TokenManager._needs_refresh`. -/
def needsRefresh (tokenInfo : Option TokenInfo) (refreshBuffer now : ℚ) : Bool :=
  match tokenInfo with
  | Option.none => true
  | some info => decide (now ≥ info.expiresAt - refreshBuffer)

/-! ## Telemetry header redaction — `scope_client/_telemetry.py` -/

/-- `str.lower` (ASCII fragment, which covers every header the SDK sets). -/
def lowerString (s : String) : String :=
  String.mk (s.data.map Char.toLower)

def sensitiveKeys : List String :=
  ["authorization", "x-api-key", "api-key"]

/-- `redact_headers`: keys whose lower-case form is sensitive are mapped to
`"Bearer [REDACTED]"` when `value.lower().startswith("bearer ")` and to
`"[REDACTED]"` otherwise; all other headers pass through. -/
def redactHeaders (headers : List (String × String)) : List (String × String) :=
  headers.map fun kv =>
    if lowerString kv.1 ∈ sensitiveKeys then
      if startsWithL (lowerString kv.2).data "bearer ".data then (kv.1, "Bearer [REDACTED]")
      else (kv.1, "[REDACTED]")
    else kv

/-- Modelled from the spec: the redaction rule exactly as claim C9 words
it — `"Bearer [REDACTED]"` when the value starts with the literal
`"Bearer "` (case-sensitively), `"[REDACTED]"` otherwise — kept as the
reference point the code's case-insensitive check is compared against. -/
def redactHeadersClaimC9 (headers : List (String × String)) : List (String × String) :=
  headers.map fun kv =>
    if lowerString kv.1 ∈ sensitiveKeys then
      if startsWithL kv.2.data "Bearer ".data then (kv.1, "Bearer [REDACTED]")
      else (kv.1, "[REDACTED]")
    else kv

/-- `Connection._default_headers` (the header map passed to
`redact_headers` by `_emit_request_telemetry`; it never contains the
Authorization header, which is attached per attempt separately). -/
def defaultHeaders (version : String) (environment : Option String) : List (String × String) :=
  [("Accept", "application/json"), ("Content-Type", "application/json"),
    ("User-Agent", "scope-client-python/" ++ version)] ++
    (match environment with
    | some env => [("X-Scope-Environment", env)]
    | Option.none => [])

/-- The header map of every request-telemetry event emitted by
`Connection._emit_request_telemetry`. -/
def emittedRequestHeaders (version : String) (environment : Option String) :
    List (String × String) :=
  redactHeaders (defaultHeaders version environment)

/-! ## Connection request loop — `Connection._request`

The transport is `httpx.Client.request`, modelled as a function from the
zero-based attempt index to an outcome.  `statusExc` models
`httpx.HTTPStatusError`; `httpx` raises it only from
`Response.raise_for_status`, which `connection.py` never calls, so the
real transport produces only the first three outcomes — the
`except httpx.HTTPStatusError` branch of `_request` is kept in the
model for fidelity but is dead code in the program. -/

/-- A `Retry-After` header string, abstracted by how `float()` parses it
(`notNum` also covers the empty string, which is falsy and skipped). -/
inductive HeaderNum where
  | num (q : ℚ)
  | notNum
deriving DecidableEq, Repr

structure HttpResponse where
  status : ℕ
  retryAfterHeader : Option HeaderNum
  errorCode : Option String
  message : Option String
  body : String
  requestId : Option String
deriving DecidableEq, Repr

inductive Outcome where
  | response (r : HttpResponse)
  | timeoutExc
  | connectExc
  | statusExc (r : HttpResponse)
deriving DecidableEq, Repr

inductive NetEvent where
  | attempt
  | sleep (t : ℚ)
deriving DecidableEq, Repr

/-- `RETRYABLE_STATUS_CODES = {429, 500, 502, 503, 504}`. -/
def retryableStatus (s : ℕ) : Bool :=
  s = 429 || s = 500 || s = 502 || s = 503 || s = 504

/-- `int(header)` as used for the 429 `retry_after` attribute: succeeds
exactly on integer-valued numerals. -/
def headerInt (h : Option HeaderNum) : Option ℤ :=
  match h with
  | some (.num q) => if q.den = 1 then some q.num else Option.none
  | _ => Option.none

/-- `errors.error_from_response` composed with
`Connection._error_from_response`'s parsing. -/
def classifyResponse (r : HttpResponse) : ScopeErr :=
  if r.status = 401 then .authentication r.message
  else if r.status = 403 then .authorization r.message
  else if r.status = 404 then .notFound r.message
  else if r.status = 409 then .conflict r.message
  else if r.status = 429 then .rateLimit r.message (headerInt r.retryAfterHeader)
  else if 500 ≤ r.status ∧ r.status < 600 then .server r.status r.message
  else .apiError r.status r.message

/-- `Connection._handle_response`: raise the classified error on
status ≥ 400, return `None` on an empty body, else the parsed body
(modelled by its text). -/
def handleResponse (r : HttpResponse) : Except ScopeErr (Option String) :=
  if r.status ≥ 400 then .error (classifyResponse r)
  else if r.body = "" then .ok Option.none
  else .ok (some r.body)

/-- The `while attempts <= max_retries` loop of `Connection._request`.
`made` counts finished iterations, so `attempts = made + 1` inside the
body; the fuel `maxRetries + 1 - made` is structural and exact (the
`fuel = 0` case is the function's trailing `raise`, unreachable from
`connectionRequest`).  Backoff jitter is abstracted into the
per-attempt wait function `backoff`. -/
def requestAux (maxRetries : ℕ) (backoff : ℕ → ℚ) (transport : ℕ → Outcome) :
    ℕ → ℕ → Option ScopeErr → List NetEvent →
    Except ScopeErr (Option String) × List NetEvent
  | _, 0, lastErr, trace =>
    match lastErr with
    | some e => (.error e, trace)
    | Option.none => (.error (.connectionError "Request failed after all retries"), trace)
  | made, fuel + 1, lastErr, trace =>
    let attempts := made + 1
    match transport made with
    | .response r => (handleResponse r, trace ++ [NetEvent.attempt])
    | .timeoutExc =>
      if attempts ≤ maxRetries then
        requestAux maxRetries backoff transport (made + 1) fuel
          (some (.timeoutError "Request timed out"))
          (trace ++ [NetEvent.attempt, NetEvent.sleep (backoff attempts)])
      else (.error (.timeoutError "Request timed out"), trace ++ [NetEvent.attempt])
    | .connectExc =>
      if attempts ≤ maxRetries then
        requestAux maxRetries backoff transport (made + 1) fuel
          (some (.connectionError "Failed to connect"))
          (trace ++ [NetEvent.attempt, NetEvent.sleep (backoff attempts)])
      else (.error (.connectionError "Failed to connect"), trace ++ [NetEvent.attempt])
    | .statusExc r =>
      if retryableStatus r.status && attempts ≤ maxRetries then
        let wait :=
          match r.retryAfterHeader with
          | some (.num q) => q
          | some .notNum => backoff attempts
          | Option.none => backoff attempts
        requestAux maxRetries backoff transport (made + 1) fuel lastErr
          (trace ++ [NetEvent.attempt, NetEvent.sleep wait])
      else (.error (classifyResponse r), trace ++ [NetEvent.attempt])

/-- One call of `Connection._request`: result and the trace of attempts
and sleeps. -/
def connectionRequest (maxRetries : ℕ) (backoff : ℕ → ℚ) (transport : ℕ → Outcome) :
    Except ScopeErr (Option String) × List NetEvent :=
  requestAux maxRetries backoff transport 0 (maxRetries + 1) Option.none []

/-! ## Client façade — `scope_client/client.py`

Each method's loader closure, over an abstract connection
`path ↦ Except error payload` (the `PromptVersion`/`Prompt` resource
wrappers are payload-preserving and out of the claims' scope; the cache
layer, `_fetch_with_cache`, passes loader exceptions through untouched
and is modelled separately by `Cache.fetch`). -/

abbrev ConnFun : Type := String → Except ScopeErr (Option String)

/-- `ScopeClient.get_prompt`'s loader. -/
def getPrompt (conn : ConnFun) (promptId : String) : Except ScopeErr (Option String) :=
  conn ("prompts/" ++ promptId)

/-- `ScopeClient.get_prompt_latest`'s loader. -/
def getPromptLatest (conn : ConnFun) (promptId : String) : Except ScopeErr (Option String) :=
  conn ("prompts/" ++ promptId ++ "/latest")

/-- `ScopeClient.get_prompt_production`'s loader: a `NotFoundError`
from the connection becomes `NoProductionVersionError(prompt_id)`;
everything else passes through. -/
def getPromptProduction (conn : ConnFun) (promptId : String) :
    Except ScopeErr (Option String) :=
  match conn ("prompts/" ++ promptId ++ "/production") with
  | .ok d => .ok d
  | .error (.notFound _) => .error (.noProductionVersion promptId)
  | .error e => .error e

/-- `ScopeClient.get_prompt_version`'s loader. -/
def getPromptVersionById (conn : ConnFun) (promptId versionId : String) :
    Except ScopeErr (Option String) :=
  conn ("prompts/" ++ promptId ++ "/versions/" ++ versionId)

/-- `ScopeClient.list_prompts` (uncached). -/
def listPrompts (conn : ConnFun) : Except ScopeErr (Option String) :=
  conn "prompts"

/-! ## Helper lemmas -/

theorem storeGet_storeSet_self {α : Type} (s : List (String × CacheEntry α)) (k : String)
    (e : CacheEntry α) : storeGet (storeSet s k e) k = some e := by
  induction s with
  | nil => simp [storeSet, storeGet]
  | cons hd tl ih =>
    obtain ⟨k₁, e₁⟩ := hd
    by_cases h : k₁ = k <;> simp [storeSet, storeGet, h, ih]

theorem cacheGet_fst_value_none {α : Type} (c : Cache α) (now : ℚ) (k : String)
    (e : CacheEntry α) (hs : storeGet c.store k = some e) (hv : e.value = Option.none) :
    (Cache.get c now k).1 = Option.none := by
  unfold Cache.get
  rw [hs]
  by_cases h : e.isExpired now <;> simp [h, hv]

theorem cacheFetch_of_get_none {α : Type} (c : Cache α) (now : ℚ) (k : String)
    (lv : Option α) (lt : Option ℚ) (h : (Cache.get c now k).1 = Option.none) :
    Cache.fetch c now k lv lt = (lv, Cache.set (Cache.get c now k).2 now k lv lt, true) := by
  unfold Cache.fetch
  rcases hE : Cache.get c now k with ⟨v, c₁⟩
  rw [hE] at h
  simp at h
  subst h
  simp

theorem cacheGet_set_unexpired {α : Type} (c : Cache α) (t₀ t₁ : ℚ) (k : String)
    (v : Option α) (lt : Option ℚ) (h : t₁ < t₀ + lt.getD c.ttl) :
    Cache.get (Cache.set c t₀ k v lt) t₁ k = (v, Cache.set c t₀ k v lt) := by
  unfold Cache.get Cache.set
  rw [storeGet_storeSet_self]
  simp [CacheEntry.isExpired, not_le.mpr h]

/-! ## Claims about the cache -/

/-- **C10**: at the public cache interface a stored `None` is
indistinguishable from an absent key: after `set(key, None)`, `get(key)`
returns absent even before the entry expires, `has(key)` is false, and
`fetch(key, loader)` with a loader returning `None` invokes the loader
on every call rather than only on the first. -/
theorem cache_none_indistinguishable {α : Type} (c : Cache α) (now₁ now₂ t₁ t₂ : ℚ)
    (k : String) (lt : Option ℚ) (hexp : now₂ < now₁ + lt.getD c.ttl) :
    (Cache.get (Cache.set c now₁ k Option.none lt) now₂ k).1 = Option.none ∧
    (Cache.has (Cache.set c now₁ k Option.none lt) now₂ k).1 = false ∧
    (Cache.fetch (Cache.set c now₁ k Option.none lt) t₁ k Option.none lt).2.2 = true ∧
    (Cache.fetch
      (Cache.fetch (Cache.set c now₁ k Option.none lt) t₁ k Option.none lt).2.1
      t₂ k Option.none lt).2.2 = true := by
  have hget : ∀ t : ℚ, (Cache.get (Cache.set c now₁ k Option.none lt) t k).1 = Option.none := by
    intro t
    exact cacheGet_fst_value_none _ t k ⟨Option.none, now₁ + lt.getD c.ttl⟩
      (storeGet_storeSet_self _ _ _) rfl
  refine ⟨hget now₂, ?_, ?_, ?_⟩
  · unfold Cache.has
    simp [hget now₂]
  · rw [cacheFetch_of_get_none _ _ _ _ _ (hget t₁)]
  · rw [cacheFetch_of_get_none _ _ _ _ _ (hget t₁)]
    have hget₂ : (Cache.get (Cache.set (Cache.get (Cache.set c now₁ k Option.none lt) t₁ k).2
        t₁ k Option.none lt) t₂ k).1 = Option.none := by
      exact cacheGet_fst_value_none _ t₂ k ⟨Option.none, t₁ + lt.getD _⟩
        (storeGet_storeSet_self _ _ _) rfl
    rw [cacheFetch_of_get_none _ _ _ _ _ hget₂]

/-- Witness for `cache_none_indistinguishable` at a concrete cache. -/
theorem cache_none_indistinguishable_witness :
    ((1 : ℚ) < 0 + (100 : ℚ)) ∧
    ((Cache.get (Cache.set (⟨100, []⟩ : Cache ℕ) 0 "k" Option.none Option.none) 1 "k").1
        = Option.none ∧
      (Cache.has (Cache.set (⟨100, []⟩ : Cache ℕ) 0 "k" Option.none Option.none) 1 "k").1
        = false ∧
      (Cache.fetch (Cache.set (⟨100, []⟩ : Cache ℕ) 0 "k" Option.none Option.none)
        2 "k" Option.none Option.none).2.2 = true ∧
      (Cache.fetch
        (Cache.fetch (Cache.set (⟨100, []⟩ : Cache ℕ) 0 "k" Option.none Option.none)
          2 "k" Option.none Option.none).2.1 3 "k" Option.none Option.none).2.2 = true) :=
  ⟨by norm_num, cache_none_indistinguishable (⟨100, []⟩ : Cache ℕ) 0 1 2 3 "k" Option.none
    (by norm_num)⟩

/-- **C6 (counterexample)**: the claim "fetch returns the cached value
when the key holds an unexpired entry ... and invokes the loader only
once" fails when the stored value is `None`: with an unexpired entry
`⟨None, 100⟩` under `"k"`, `fetch` invokes the loader anyway and
returns the loader's value `42`, not the cached value. -/
theorem cache_fetch_claim_counterexample :
    storeGet (Cache.set (⟨100, []⟩ : Cache ℕ) 0 "k" Option.none Option.none).store "k"
      = some ⟨Option.none, 100⟩ ∧
    (⟨Option.none, 100⟩ : CacheEntry ℕ).isExpired 1 = false ∧
    Cache.fetch (Cache.set (⟨100, []⟩ : Cache ℕ) 0 "k" Option.none Option.none)
      1 "k" (some 42) Option.none
      = (some 42,
          Cache.set (Cache.set (⟨100, []⟩ : Cache ℕ) 0 "k" Option.none Option.none)
            1 "k" (some 42) Option.none, true) := by
  refine ⟨?_, ?_, ?_⟩
  · norm_num [Cache.set, storeSet, storeGet]
  · norm_num [CacheEntry.isExpired]
  · rw [cacheFetch_of_get_none _ _ _ _ _ ?_]
    · norm_num [Cache.get, Cache.set, storeSet, storeGet, CacheEntry.isExpired]
    · norm_num [Cache.get, Cache.set, storeSet, storeGet, CacheEntry.isExpired]

/-- **C6 (amended)**: `fetch` returns the cached value when the key holds
an unexpired entry *whose value is not `None`*; when `get` observes no
value (key absent, entry expired, or stored value `None`) it invokes the
loader, stores the result, and returns it; and two `fetch` calls with the
same key and an unchanged loader *returning a non-`None` value*, the
second made while the first call's result is still within TTL, return the
same value and invoke the loader only once. -/
theorem cache_fetch_contract {α : Type} :
    (∀ (c : Cache α) (now : ℚ) (k : String) (lv : Option α) (lt : Option ℚ)
        (e : CacheEntry α), storeGet c.store k = some e → e.isExpired now = false →
        e.value ≠ Option.none → Cache.fetch c now k lv lt = (e.value, c, false)) ∧
    (∀ (c : Cache α) (now : ℚ) (k : String) (lv : Option α) (lt : Option ℚ),
        (Cache.get c now k).1 = Option.none →
        Cache.fetch c now k lv lt = (lv, Cache.set (Cache.get c now k).2 now k lv lt, true)) ∧
    (∀ (c : Cache α) (t₀ t₁ : ℚ) (k : String) (v : α) (lt : Option ℚ),
        storeGet c.store k = Option.none → t₀ ≤ t₁ → t₁ < t₀ + lt.getD c.ttl →
        Cache.fetch c t₀ k (some v) lt = (some v, Cache.set c t₀ k (some v) lt, true) ∧
        Cache.fetch (Cache.set c t₀ k (some v) lt) t₁ k (some v) lt
          = (some v, Cache.set c t₀ k (some v) lt, false)) := by
  have hit : ∀ (c : Cache α) (now : ℚ) (k : String) (lv : Option α) (lt : Option ℚ)
      (e : CacheEntry α), storeGet c.store k = some e → e.isExpired now = false →
      e.value ≠ Option.none → Cache.fetch c now k lv lt = (e.value, c, false) := by
    intro c now k lv lt e hs hexp hv
    have hget : Cache.get c now k = (e.value, c) := by
      unfold Cache.get
      rw [hs]
      simp [hexp]
    unfold Cache.fetch
    rw [hget]
    rcases hval : e.value with _ | v
    · exact absurd hval hv
    · simp
  refine ⟨hit, ?_, ?_⟩
  · intro c now k lv lt h
    exact cacheFetch_of_get_none c now k lv lt h
  · intro c t₀ t₁ k v lt habs hle hexp
    have hget : Cache.get c t₀ k = (Option.none, c) := by
      unfold Cache.get
      rw [habs]
    have h₁ : Cache.fetch c t₀ k (some v) lt
        = (some v, Cache.set c t₀ k (some v) lt, true) := by
      rw [cacheFetch_of_get_none c t₀ k (some v) lt (by rw [hget])]
      rw [hget]
    refine ⟨h₁, ?_⟩
    have hTtl : lt.getD (Cache.set c t₀ k (some v) lt).ttl = lt.getD c.ttl := rfl
    exact hit _ t₁ k (some v) lt ⟨some v, t₀ + lt.getD c.ttl⟩
      (storeGet_storeSet_self _ _ _)
      (by simp [CacheEntry.isExpired, not_le.mpr hexp]) (by simp)

/-- Witness for `cache_fetch_contract` on a concrete two-call run. -/
theorem cache_fetch_contract_witness :
    (storeGet (⟨100, []⟩ : Cache ℕ).store "k" = Option.none ∧ (0 : ℚ) ≤ 5 ∧
      (5 : ℚ) < 0 + 100) ∧
    (Cache.fetch (⟨100, []⟩ : Cache ℕ) 0 "k" (some 7) Option.none
        = (some 7, Cache.set (⟨100, []⟩ : Cache ℕ) 0 "k" (some 7) Option.none, true) ∧
      Cache.fetch (Cache.set (⟨100, []⟩ : Cache ℕ) 0 "k" (some 7) Option.none) 5 "k"
          (some 7) Option.none
        = (some 7, Cache.set (⟨100, []⟩ : Cache ℕ) 0 "k" (some 7) Option.none, false)) :=
  ⟨⟨by decide, by norm_num, by norm_num⟩,
    cache_fetch_contract.2.2 (⟨100, []⟩ : Cache ℕ) 0 5 "k" 7 Option.none
      (by decide) (by norm_num) (by norm_num)⟩

/-! ## Claim about backoff -/

/-- **C2**: for attempt `n ≥ 1` and non-negative base/max delays, the
backoff with the jitter term at zero (`random() = 1/2`) equals
`min(maxDelay, baseDelay * 2^(n-1))`; with jitter, the returned delay
lies within ±25% of that clamped figure, is never negative, and never
exceeds `maxDelay`. -/
theorem backoff_formula (base maxD : ℚ) (n : ℕ) (r : ℚ) (hbase : 0 ≤ base)
    (hmax : 0 ≤ maxD) (hn : 1 ≤ n) (hr0 : 0 ≤ r) (hr1 : r < 1) :
    calculateBackoff base maxD n (1 / 2) = min maxD (base * 2 ^ (n - 1)) ∧
    3 / 4 * min maxD (base * 2 ^ (n - 1)) ≤ calculateBackoff base maxD n r ∧
    calculateBackoff base maxD n r ≤ 5 / 4 * min maxD (base * 2 ^ (n - 1)) ∧
    0 ≤ calculateBackoff base maxD n r ∧
    calculateBackoff base maxD n r ≤ maxD := by
  have hx : ∀ s : ℚ, calculateBackoff base maxD n s
      = min (base * 2 ^ (n - 1) + base * 2 ^ (n - 1) * (1 / 4) * (2 * s - 1)) maxD := by
    intro s
    rfl
  have hd0 : (0 : ℚ) ≤ base * 2 ^ (n - 1) := by positivity
  set d : ℚ := base * 2 ^ (n - 1) with hdDef
  have hjlo : 3 / 4 * d ≤ d + d * (1 / 4) * (2 * r - 1) := by nlinarith
  have hjhi : d + d * (1 / 4) * (2 * r - 1) ≤ 5 / 4 * d := by nlinarith
  refine ⟨?_, ?_, ?_, ?_, ?_⟩
  · rw [hx]
    have h0 : d + d * (1 / 4) * (2 * (1 / 2 : ℚ) - 1) = d := by ring
    rw [h0, min_comm]
  · rw [hx]
    rcases le_total maxD d with h | h
    · rw [min_eq_left h]
      refine le_min (by nlinarith) (by nlinarith)
    · rw [min_eq_right h]
      refine le_min (by nlinarith) (by nlinarith)
  · rw [hx]
    rcases le_total maxD d with h | h
    · rw [min_eq_left h]
      calc min (d + d * (1 / 4) * (2 * r - 1)) maxD ≤ maxD := min_le_right _ _
        _ ≤ 5 / 4 * maxD := by nlinarith
    · rw [min_eq_right h]
      calc min (d + d * (1 / 4) * (2 * r - 1)) maxD ≤ d + d * (1 / 4) * (2 * r - 1) :=
          min_le_left _ _
        _ ≤ 5 / 4 * d := hjhi
  · rw [hx]
    exact le_min (by nlinarith) hmax
  · rw [hx]
    exact min_le_right _ _

/-- Witness for `backoff_formula` at `base = 1`, `max = 10`, attempt 2,
`random() = 1/4`. -/
theorem backoff_formula_witness :
    ((0 : ℚ) ≤ 1 ∧ (0 : ℚ) ≤ 10 ∧ 1 ≤ 2 ∧ (0 : ℚ) ≤ 1 / 4 ∧ (1 / 4 : ℚ) < 1) ∧
    (calculateBackoff 1 10 2 (1 / 2) = min 10 (1 * 2 ^ (2 - 1)) ∧
      3 / 4 * min 10 ((1 : ℚ) * 2 ^ (2 - 1)) ≤ calculateBackoff 1 10 2 (1 / 4) ∧
      calculateBackoff 1 10 2 (1 / 4) ≤ 5 / 4 * min 10 ((1 : ℚ) * 2 ^ (2 - 1)) ∧
      0 ≤ calculateBackoff 1 10 2 (1 / 4) ∧
      calculateBackoff 1 10 2 (1 / 4) ≤ 10) :=
  ⟨⟨by norm_num, by norm_num, by norm_num, by norm_num, by norm_num⟩,
    backoff_formula 1 10 2 (1 / 4) (by norm_num) (by norm_num) (by norm_num) (by norm_num)
      (by norm_num)⟩

/-! ## Claims about the renderer -/

theorem dedupFirst_ne_nil (l : List String) (h : l ≠ []) : dedupFirst l ≠ [] := by
  cases l with
  | nil => exact absurd rfl h
  | cons x xs => simp [dedupFirst, dedupAux]

/-- **C7**: when a declared-variable set is provided, `render` fails with
a Validation error — before performing any substitution and regardless of
the template content — whenever some supplied key is not declared, and
the message lists the unknown variables sorted together with the full
declared set. -/
theorem render_unknown_validation (content : String) (declared : List String)
    (values : List (String × String))
    (h : ∃ k ∈ values.map Prod.fst, k ∉ declared) :
    render content (some declared) values =
      .error (.validation ("Unknown variables: " ++
        joinComma (insertionSort (unknownKeys values declared)) ++
        ". Declared variables are: " ++ joinComma (insertionSort (dedupFirst declared)))) := by
  have hne : unknownKeys values declared ≠ [] := by
    obtain ⟨k, hk, hnd⟩ := h
    apply dedupFirst_ne_nil
    intro hnil
    have : k ∈ List.filter (fun k => decide (k ∉ declared)) (values.map Prod.fst) :=
      List.mem_filter.mpr ⟨hk, by simpa using hnd⟩
    rw [hnil] at this
    exact absurd this (List.not_mem_nil k)
  have hv : validateVariables (some declared) values =
      some (.validation ("Unknown variables: " ++
        joinComma (insertionSort (unknownKeys values declared)) ++
        ". Declared variables are: " ++ joinComma (insertionSort (dedupFirst declared)))) := by
    unfold validateVariables
    simp [hne]
  unfold render
  rw [hv]

/-- Witness for `render_unknown_validation`: declared `["name"]`,
supplied `name` and `extra`. -/
theorem render_unknown_validation_witness :
    (∃ k ∈ ([("name", "A"), ("extra", "B")].map Prod.fst), k ∉ ["name"]) ∧
    render "Hello, {{name}}!" (some ["name"]) [("name", "A"), ("extra", "B")] =
      .error (.validation "Unknown variables: extra. Declared variables are: name") :=
  ⟨⟨"extra", by decide, by decide⟩,
    (render_unknown_validation "Hello, {{name}}!" ["name"] [("name", "A"), ("extra", "B")]
      ⟨"extra", by decide, by decide⟩).trans (by decide)⟩

/-- **C8**: after substitution `render` scans the result for remaining
`{{identifier}}` patterns (word characters only) and fails with
MissingVariable carrying the deduplicated remaining names and the
original template; `"{{a}}{{b}}"` with only `a` supplied fails listing
exactly `["b"]`; duplicates are deduplicated; a non-word placeholder
like `{{a b}}` is not matched. -/
theorem render_missing_variables :
    (∀ (content : String) (values : List (String × String)),
        findVars (substitute content values) ≠ [] →
        render content Option.none values =
          .error (.missingVariable (dedupFirst (findVars (substitute content values)))
            content)) ∧
    render "{{a}}{{b}}" Option.none [("a", "1")] = .error (.missingVariable ["b"] "{{a}}{{b}}") ∧
    render "{{b}}{{b}}" Option.none [] = .error (.missingVariable ["b"] "{{b}}{{b}}") ∧
    render "x {{a b}} y" Option.none [] = .ok "x {{a b}} y" ∧
    render "{{v_1}}" Option.none [] = .error (.missingVariable ["v_1"] "{{v_1}}") := by
  refine ⟨?_, by decide, by decide, by decide, by decide⟩
  intro content values h
  unfold render validateVariables checkUnrendered
  simp [h]

/-- Witness for `render_missing_variables` at template `"{{x}}"` with no
values. -/
theorem render_missing_variables_witness :
    (findVars (substitute "{{x}}" []) ≠ []) ∧
    render "{{x}}" Option.none [] = .error (.missingVariable ["x"] "{{x}}") :=
  ⟨by decide, (render_missing_variables.1 "{{x}}" [] (by decide)).trans (by decide)⟩

/-- **C3 (counterexample)**: rendering `"{{a}}"` with
`a = "{{b}}", b = "2"` returns `"2"` — the `{{b}}` text inserted from
`a`'s value *is* substituted by the other supplied value — while the
single-substitution-pass renderer the claim describes would leave it
verbatim and then fail the missing-variable check. -/
theorem render_single_pass_counterexample :
    render "{{a}}" Option.none [("a", "{{b}}"), ("b", "2")] = .ok "2" ∧
    renderSinglePassSpec "{{a}}" Option.none [("a", "{{b}}"), ("b", "2")] =
      .error (.missingVariable ["b"] "{{a}}") ∧
    render "{{a}}" Option.none [("a", "{{b}}"), ("b", "2")] ≠
      renderSinglePassSpec "{{a}}" Option.none [("a", "{{b}}"), ("b", "2")] := by
  refine ⟨by decide, by decide, by decide⟩

/-- **C3 (amended)**: `render` substitutes the supplied values
sequentially in iteration order, each pass rewriting the accumulated
result: placeholder text contained in a supplied value *is* substituted
by the value of a key iterated later (`a = "{{b}}"` before `b = "2"`
yields `"2"`); with the reverse order the inserted `{{b}}` is not
substituted and instead trips the post-check; inserted text that matches
no `{{word}}` placeholder is carried verbatim into the output. -/
theorem render_sequential_substitution :
    render "{{a}}" Option.none [("a", "{{b}}"), ("b", "2")] = .ok "2" ∧
    render "{{a}}" Option.none [("b", "2"), ("a", "{{b}}")] =
      .error (.missingVariable ["b"] "{{a}}") ∧
    render "x{{a}}y" Option.none [("a", "{{b c}}")] = .ok "x{{b c}}y" := by
  refine ⟨by decide, by decide, by decide⟩

/-! ## Claim about the client façade -/

/-- **C4**: `get_prompt_production` translates a `NotFoundError` from the
connection into `NoProductionVersionError` carrying the requested prompt
id, and this is the façade's only semantic translation: every other
error, on every façade operation, surfaces unmodified. -/
theorem production_translation :
    (∀ (conn : ConnFun) (pid : String) (m : Option String),
        conn ("prompts/" ++ pid ++ "/production") = .error (.notFound m) →
        getPromptProduction conn pid = .error (.noProductionVersion pid)) ∧
    (∀ (conn : ConnFun) (pid : String) (e : ScopeErr), (∀ m, e ≠ .notFound m) →
        conn ("prompts/" ++ pid ++ "/production") = .error e →
        getPromptProduction conn pid = .error e) ∧
    (∀ (conn : ConnFun) (pid : String) (e : ScopeErr),
        conn ("prompts/" ++ pid) = .error e → getPrompt conn pid = .error e) ∧
    (∀ (conn : ConnFun) (pid : String) (e : ScopeErr),
        conn ("prompts/" ++ pid ++ "/latest") = .error e →
        getPromptLatest conn pid = .error e) ∧
    (∀ (conn : ConnFun) (pid vid : String) (e : ScopeErr),
        conn ("prompts/" ++ pid ++ "/versions/" ++ vid) = .error e →
        getPromptVersionById conn pid vid = .error e) ∧
    (∀ (conn : ConnFun) (e : ScopeErr), conn "prompts" = .error e →
        listPrompts conn = .error e) := by
  refine ⟨?_, ?_, ?_, ?_, ?_, ?_⟩
  · intro conn pid m h
    unfold getPromptProduction
    rw [h]
  · intro conn pid e he h
    unfold getPromptProduction
    rw [h]
    cases e with
    | notFound m => exact absurd rfl (he m)
    | _ => rfl
  · intro conn pid e h
    exact h
  · intro conn pid e h
    exact h
  · intro conn pid vid e h
    exact h
  · intro conn e h
    exact h

/-- Witness for `production_translation`: a connection that 404s on the
production path yields `NoProductionVersionError "p1"`. -/
theorem production_translation_witness :
    ((fun _ : String => (Except.error (ScopeErr.notFound Option.none) :
        Except ScopeErr (Option String))) ("prompts/" ++ "p1" ++ "/production")
      = Except.error (ScopeErr.notFound Option.none)) ∧
    getPromptProduction (fun _ => Except.error (ScopeErr.notFound Option.none)) "p1"
      = Except.error (ScopeErr.noProductionVersion "p1") :=
  ⟨rfl, production_translation.1 (fun _ => Except.error (ScopeErr.notFound Option.none))
    "p1" Option.none rfl⟩

/-! ## Claim about the token manager -/

theorem truthy_eq_true (o : Option String) : truthy o = true ↔ ∃ s, o = some s ∧ s ≠ "" := by
  cases o <;> simp [truthy]

/-- **C5**: `_handle_token_response` by status: 200 parses
`access_token` and `expires_in` (default 300) and stores
`expires_at = now + expires_in`; 401 and 403 fail with
InvalidCredentials; any other status fails with TokenRefreshError
carrying the server-provided message or the generic fallback. -/
theorem token_response_classification (status : ℕ) (body : Option AuthJson) (now : ℚ) :
    (∀ data tok, status = 200 → body = some data → data.accessToken = some tok →
        handleTokenResponse status body now = .ok ⟨tok, now + data.expiresIn.getD 300⟩) ∧
    (status = 401 → handleTokenResponse status body now
        = .invalidCredentials "Invalid SDK credentials") ∧
    (status = 403 → handleTokenResponse status body now
        = .invalidCredentials "SDK credentials are not authorized") ∧
    (status ≠ 200 → status ≠ 401 → status ≠ 403 →
        ∃ m, handleTokenResponse status body now = .tokenRefresh m ∧
          ((∃ data, body = some data ∧ pyOrStr data.message data.errorField = some m ∧
              m ≠ "") ∨
            m = "Token refresh failed (HTTP " ++ toString status ++ ")")) := by
  refine ⟨?_, ?_, ?_, ?_⟩
  · intro data tok h200 hb ht
    subst h200
    subst hb
    unfold handleTokenResponse
    simp [ht]
  · intro h
    subst h
    unfold handleTokenResponse
    simp
  · intro h
    subst h
    unfold handleTokenResponse
    simp
  · intro h200 h401 h403
    unfold handleTokenResponse
    rw [if_neg h200, if_neg h401, if_neg h403]
    cases body with
    | none =>
      exact ⟨_, by simp [truthy], Or.inr rfl⟩
    | some data =>
      rcases htr : truthy (pyOrStr data.message data.errorField) with _ | _
      · exact ⟨_, by simp [htr], Or.inr rfl⟩
      · obtain ⟨s, hs, hne⟩ := (truthy_eq_true _).mp htr
        refine ⟨s, ?_, Or.inl ⟨data, rfl, hs, hne⟩⟩
        simp [hs, truthy, hne]

/-- Witness for `token_response_classification`, exercising the 200,
401, 403 and generic branches at concrete inputs. -/
theorem token_response_classification_witness :
    ((some ⟨some "tok", Option.none, Option.none, Option.none⟩ : Option AuthJson)
        = some ⟨some "tok", Option.none, Option.none, Option.none⟩ ∧
      (500 : ℕ) ≠ 200 ∧ (500 : ℕ) ≠ 401 ∧ (500 : ℕ) ≠ 403) ∧
    handleTokenResponse 200 (some ⟨some "tok", Option.none, Option.none, Option.none⟩) 5
      = .ok ⟨"tok", 5 + (Option.none : Option ℚ).getD 300⟩ ∧
    handleTokenResponse 401 Option.none 5 = .invalidCredentials "Invalid SDK credentials" ∧
    handleTokenResponse 403 Option.none 5
      = .invalidCredentials "SDK credentials are not authorized" ∧
    (∃ m, handleTokenResponse 500 Option.none 5 = .tokenRefresh m ∧
      ((∃ data, (Option.none : Option AuthJson) = some data ∧
          pyOrStr data.message data.errorField = some m ∧ m ≠ "") ∨
        m = "Token refresh failed (HTTP " ++ toString (500 : ℕ) ++ ")")) :=
  ⟨⟨rfl, by decide, by decide, by decide⟩,
    (token_response_classification 200
      (some ⟨some "tok", Option.none, Option.none, Option.none⟩) 5).1
      ⟨some "tok", Option.none, Option.none, Option.none⟩ "tok" rfl rfl rfl,
    (token_response_classification 401 Option.none 5).2.1 rfl,
    (token_response_classification 403 Option.none 5).2.2.1 rfl,
    (token_response_classification 500 Option.none 5).2.2.2 (by decide) (by decide)
      (by decide)⟩

/-! ## Claim about telemetry redaction -/

theorem startsWithL_append (p rest : List Char) : startsWithL (p ++ rest) p = true := by
  induction p with
  | nil => cases rest <;> rfl
  | cons c cs ih => simp [startsWithL, ih]

theorem lowerString_bearer (t : String) :
    startsWithL (lowerString ("Bearer " ++ t)).data "bearer ".data = true := by
  show startsWithL ((("Bearer " ++ t).data).map Char.toLower) "bearer ".data = true
  have hdata : ("Bearer " ++ t).data = "Bearer ".data ++ t.data := rfl
  rw [hdata, List.map_append]
  have hlow : "Bearer ".data.map Char.toLower = "bearer ".data := by decide
  rw [hlow]
  exact startsWithL_append _ _

/-- **C9 (counterexample)**: for the value `"bearer abc"` — which does
not start with the literal `"Bearer "` — the code's case-insensitive
check emits `"Bearer [REDACTED]"`, while the claim's stated rule maps it
to `"[REDACTED]"`. -/
theorem redact_headers_counterexample :
    redactHeaders [("Authorization", "bearer abc")]
      = [("Authorization", "Bearer [REDACTED]")] ∧
    redactHeadersClaimC9 [("Authorization", "bearer abc")]
      = [("Authorization", "[REDACTED]")] ∧
    redactHeaders [("Authorization", "bearer abc")]
      ≠ redactHeadersClaimC9 [("Authorization", "bearer abc")] := by
  refine ⟨by decide, by decide, by decide⟩

/-- **C9 (amended)**: telemetry redaction never exposes a raw
token: a header whose name is Authorization, X-Api-Key or Api-Key
(case-insensitive) is mapped to `"Bearer [REDACTED]"` when its value
*case-insensitively* starts with `"bearer "` and to `"[REDACTED]"`
otherwise; all other headers pass through unchanged; redaction is
per-header; two runs differing only in the bearer-token value emit
identical telemetry headers; and the header map the Connection emits
with request telemetry contains no sensitive header at all (it is its
default header set, which excludes Authorization). -/
theorem redact_headers_amended :
    (∀ k v, lowerString k ∈ sensitiveKeys →
        redactHeaders [(k, v)] =
          [(k, if startsWithL (lowerString v).data "bearer ".data then "Bearer [REDACTED]"
               else "[REDACTED]")]) ∧
    (∀ k v, lowerString k ∉ sensitiveKeys → redactHeaders [(k, v)] = [(k, v)]) ∧
    (∀ headers, redactHeaders headers = headers.map fun kv => (redactHeaders [kv]).headI) ∧
    (∀ (pre post : List (String × String)) (k t₁ t₂ : String),
        lowerString k ∈ sensitiveKeys →
        redactHeaders (pre ++ (k, "Bearer " ++ t₁) :: post)
          = redactHeaders (pre ++ (k, "Bearer " ++ t₂) :: post)) ∧
    (∀ (version : String) (env : Option String),
        emittedRequestHeaders version env = defaultHeaders version env) := by
  refine ⟨?_, ?_, ?_, ?_, ?_⟩
  · intro k v h
    by_cases hb : startsWithL (lowerString v).data "bearer ".data <;>
      simp [redactHeaders, h, hb]
  · intro k v h
    simp [redactHeaders, h]
  · intro headers
    rfl
  · intro pre post k t₁ t₂ hk
    unfold redactHeaders
    rw [List.map_append, List.map_append, List.map_cons, List.map_cons]
    have hmid : ∀ t : String,
        (if lowerString k ∈ sensitiveKeys then
          if startsWithL (lowerString ("Bearer " ++ t)).data "bearer ".data then
            (k, "Bearer [REDACTED]")
          else (k, "[REDACTED]")
        else (k, "Bearer " ++ t)) = (k, "Bearer [REDACTED]") := by
      intro t
      rw [if_pos hk, if_pos]
      exact lowerString_bearer t
    rw [hmid t₁, hmid t₂]
  · intro version env
    cases env <;> simp [emittedRequestHeaders, defaultHeaders, redactHeaders,
      sensitiveKeys, lowerString]

/-- Witness for `redact_headers_amended` at concrete headers. -/
theorem redact_headers_amended_witness :
    (lowerString "Authorization" ∈ sensitiveKeys ∧
      lowerString "X-Request-ID" ∉ sensitiveKeys) ∧
    redactHeaders [("X-Request-ID", "abc")] = [("X-Request-ID", "abc")] ∧
    redactHeaders ([] ++ ("Authorization", "Bearer " ++ "tokenA") :: [])
      = redactHeaders ([] ++ ("Authorization", "Bearer " ++ "tokenB") :: []) :=
  ⟨⟨by decide, by decide⟩,
    redact_headers_amended.2.1 "X-Request-ID" "abc" (by decide),
    redact_headers_amended.2.2.2.1 [] [] "Authorization" "tokenA" "tokenB" (by decide)⟩

/-! ## Claim about the retry loop -/

/-- **C1 (code bug)**: with the real transport — `httpx.Client.request`
returns the response and never raises `HTTPStatusError`, since
`raise_for_status` is never called — a 500 response is classified and
raised as a Server error by `_handle_response` on the *first* attempt,
with no sleep and no retry, for any `max_retries` (shown here at 3);
only the dead `except httpx.HTTPStatusError` branch would behave as the
spec describes (second and third conjuncts: retried `max_retries` times
with backoff, honouring a numeric `Retry-After`). -/
theorem retryable_status_not_retried :
    connectionRequest 3 (fun _ => (1 : ℚ))
        (fun _ => .response ⟨500, Option.none, Option.none, Option.none, "", Option.none⟩)
      = (.error (.server 500 Option.none), [NetEvent.attempt]) ∧
    connectionRequest 3 (fun _ => (1 : ℚ))
        (fun _ => .statusExc ⟨500, Option.none, Option.none, Option.none, "", Option.none⟩)
      = (.error (.server 500 Option.none),
          [NetEvent.attempt, NetEvent.sleep 1, NetEvent.attempt, NetEvent.sleep 1,
            NetEvent.attempt, NetEvent.sleep 1, NetEvent.attempt]) ∧
    connectionRequest 1 (fun _ => (1 : ℚ))
        (fun _ => .statusExc ⟨500, some (.num 2), Option.none, Option.none, "", Option.none⟩)
      = (.error (.server 500 Option.none),
          [NetEvent.attempt, NetEvent.sleep 2, NetEvent.attempt]) := by
  refine ⟨by decide, by decide, by decide⟩

end ScopeSdk
